import Mathlib

/-!
Verification of the BLE controller `src/main.py` (Ardubot R4 WiFi control app).

The development shallowly embeds the connection manager (`BLEController`),
the command channel (`BLEController.send` together with `App._send_command`
and `App.on_button`) and the characteristic-resolution policy as pure Lean
functions over an explicit state (`BLEState`) plus an environment describing
the transport adapter's behaviour (`ScanEnv`).  Side effects on the transport
are recorded as an explicit event trace (`Event`).  Python truthiness on
strings and optionals is modelled explicitly (`pyTruthyStr`,
`pyTruthyOptStr`, `pyOrStr`) because the source relies on it
(`if chosen_char_uuid:`, `chosen_char_uuid or COMMAND_CHAR_UUID`,
`if not (self.client and self.connected and self.char_uuid)`).

Concurrency (two command submissions racing on the asyncio lock) is modelled
separately as an interleaving step relation `CStep` over a two-task
configuration `CConfig`; see the second half of the file.
-/

namespace Ardubot

/-! ## Constants (src/main.py lines 22-34) -/

/-- Line 22: target peripheral name. -/
def DEVICE_NAME : String := "ardubotr4"

/-- Line 24: the known service UUID of the Arduino sketch. -/
def ROBOT_SERVICE_UUID : String := "19B10000-E8F2-537E-4F6C-D104768A1214"

/-- Line 25: the well-known command characteristic UUID. -/
def COMMAND_CHAR_UUID : String := "19B10001-E8F2-537E-4F6C-D104768A1214"

/-- Line 27: all writes request a response (acknowledged writes). -/
def REQUIRE_RESPONSE_ON_WRITE : Bool := true

/-- Lines 28-34: the command table; each command maps to its own name. -/
def COMMANDS : List (String × String) :=
  [("forward", "forward"), ("back", "back"), ("left", "left"),
   ("right", "right"), ("switch", "switch")]

/-! ## Python truthiness -/

/-- Python truthiness of a `str`: the empty string is falsy. -/
def pyTruthyStr (s : String) : Bool := s ≠ ""

/-- Python truthiness of an `Optional[str]`: `None` and `""` are falsy. -/
def pyTruthyOptStr : Option String → Bool
  | none => false
  | some s => pyTruthyStr s

/-- Python `a or b` on an `Optional[str]` left operand with `str` fallback,
as in line 118 `chosen_char_uuid or COMMAND_CHAR_UUID`. -/
def pyOrStr (a : Option String) (b : String) : String :=
  match a with
  | none => b
  | some s => if pyTruthyStr s then s else b

/-- Python `str.lower()`.  Every string this program lowers (device names,
UUIDs) is ASCII, where `str.lower()` is per-character ASCII lowering. -/
def pyLower (s : String) : String := String.mk (s.data.map Char.toLower)

/-! ## Transport-visible data (bleak objects as seen by the source) -/

/-- A GATT characteristic as the source reads it: `ch.uuid` (defaulting to
the empty string when absent, line 100) and `ch.properties` (defaulting to
the empty list, line 109). -/
structure Characteristic where
  uuid : String
  properties : List String
deriving DecidableEq

/-- A GATT service: only its `characteristics` are inspected (lines 99, 108). -/
structure Service where
  characteristics : List Characteristic
deriving DecidableEq

/-- A discovered device: `d.name` may be `None` (line 58) and `d.address`
is used as the connection target (line 65). -/
structure Device where
  name : Option String
  address : String
deriving DecidableEq

/-! ## Characteristic resolution (src/main.py lines 94-118) -/

/-- Inner loop of the exact-UUID tier (lines 99-102): scan this service's
characteristics and break with `ch.uuid` on the first case-insensitive match,
otherwise keep the previous `chosen_char_uuid` (`acc`). -/
def innerKnown (target : String) : List Characteristic → Option String → Option String
  | [], acc => acc
  | ch :: rest, acc =>
    if pyLower ch.uuid = target then some ch.uuid else innerKnown target rest acc

/-- Outer loop of the exact-UUID tier (lines 98-104): after each service the
source breaks only when `chosen_char_uuid` is truthy (line 103). -/
def outerKnown (target : String) : List Service → Option String → Option String
  | [], acc => acc
  | svc :: rest, acc =>
    let acc2 := innerKnown target svc.characteristics acc
    if pyTruthyOptStr acc2 then acc2 else outerKnown target rest acc2

/-- Inner loop of the writable-fallback tier (lines 108-112): break with
`ch.uuid` on the first characteristic whose properties contain `write` or
`write-without-response`. -/
def innerWritable : List Characteristic → Option String → Option String
  | [], acc => acc
  | ch :: rest, acc =>
    if ch.properties.contains "write" || ch.properties.contains "write-without-response" then
      some ch.uuid
    else innerWritable rest acc

/-- Outer loop of the writable-fallback tier (lines 107-114): again the outer
break tests truthiness of `chosen_char_uuid` (line 113), so an empty-string
uuid assigned by the inner loop does not stop the outer loop. -/
def outerWritable : List Service → Option String → Option String
  | [], acc => acc
  | svc :: rest, acc =>
    let acc2 := innerWritable svc.characteristics acc
    if pyTruthyOptStr acc2 then acc2 else outerWritable rest acc2

/-- Lines 94-114: `chosen_char_uuid` after both tiers.  The whole block runs
only when `services` is truthy (non-empty, line 95); the fallback tier runs
only when the first tier left `chosen_char_uuid` falsy (line 106). -/
def resolveChosen (services : List Service) : Option String :=
  if services.isEmpty then none
  else
    let c1 := outerKnown (pyLower COMMAND_CHAR_UUID) services none
    if pyTruthyOptStr c1 then c1 else outerWritable services c1

/-- Line 118: `self.char_uuid = chosen_char_uuid or COMMAND_CHAR_UUID`. -/
def resolveCharUuid (services : List Service) : String :=
  pyOrStr (resolveChosen services) COMMAND_CHAR_UUID

/-! ## Service polling (src/main.py lines 83-88) -/

/-- The polling loop of lines 83-88.  `servicesAt k` is what
`getattr(client, "services", None)` reports at the k-th query (the empty
list standing for both `None` and an empty collection, which are equally
falsy in the `while not services` test).  `fuel` only bounds the recursion;
it is started at 11, strictly more than the 10 iterations the guard
`retries < 10` permits, so it never truncates the loop. -/
def pollLoop (servicesAt : Nat → List Service) :
    List Service → Nat → Nat → List Service × Nat
  | services, retries, 0 => (services, retries)
  | services, retries, fuel + 1 =>
    if services.isEmpty && retries < 10 then
      pollLoop servicesAt (servicesAt (retries + 1)) (retries + 1) fuel
    else (services, retries)

/-- Lines 83-88: query once, then poll while the report is falsy, at most 10
retries.  Returns the final `services` value and the final `retries` count. -/
def pollServices (servicesAt : Nat → List Service) : List Service × Nat :=
  pollLoop servicesAt (servicesAt 0) 0 11

/-! ## Controller state and operations (class BLEController) -/

/-- The mutable fields of `BLEController` set in `__init__` (lines 38-45).
The opaque `BleakClient` handle is modelled by the address it was opened to. -/
structure BLEState where
  client : Option String
  char_uuid : Option String
  address : Option String
  connected : Bool
deriving DecidableEq

/-- `BLEController.__init__` (lines 38-45): everything empty, not connected. -/
def initState : BLEState :=
  { client := none, char_uuid := none, address := none, connected := false }

/-- Transport-level calls the controller makes, in order. -/
inductive Event
  | discover
  | openConn (address : String)
  | closeConn
  | write (uuid : String) (payload : List Nat) (response : Bool)
deriving DecidableEq

/-- The exceptions the embedded code can raise, with the message text kept
where the source formats it into a status string. -/
inductive PyError
  | bleakNotInstalled
  | connectFailed (msg : String)
  | notConnected
  | deviceNotConnected
  | writeFailed (msg : String)
deriving DecidableEq

/-- `str(e)` for the exceptions of the model: `RuntimeError` renders its
argument; transport errors carry their own message. -/
def errText : PyError → String
  | .bleakNotInstalled => "bleak is not installed"
  | .connectFailed msg => msg
  | .notConnected => "Not connected"
  | .deviceNotConnected => "Device not connected"
  | .writeFailed msg => msg

/-- Result of a coroutine: a value or a raised exception. -/
inductive PyResult (α : Type)
  | ok (a : α)
  | exn (e : PyError)
deriving DecidableEq

/-- Outcome of one `scan_and_connect` call: returned value (or exception),
the controller state after the call, and the transport calls made. -/
structure ScanOutcome where
  result : PyResult Bool
  state : BLEState
  events : List Event
deriving DecidableEq

/-- The transport adapter's behaviour during one `scan_and_connect` call:
whether bleak imported (lines 48-49), what `BleakScanner.discover` returns
(line 55), whether `client.connect()` raises (line 72, message recorded),
and what the `services` attribute reports at each poll (lines 83-88). -/
structure ScanEnv where
  bleakAvailable : Bool
  devices : List Device
  connectErr : Option String
  servicesAt : Nat → List Service

/-- The device-matching test of lines 57-60: `if d.name and
d.name.lower() == name.lower()` — a `None` or empty name never matches. -/
def matchName (name : String) (d : Device) : Bool :=
  match d.name with
  | none => false
  | some n => pyTruthyStr n && (pyLower n = pyLower name)

/-- Lines 56-60: first device passing `matchName`, scanning in order. -/
def findTarget (name : String) : List Device → Option Device
  | [] => none
  | d :: rest => if matchName name d then some d else findTarget name rest

/-- `BLEController.scan_and_connect` (lines 47-127) as a function of the
adapter environment and the pre-state.  The lock acquisition of line 51 is
implicit here (the sequential semantics); the interleaved semantics is the
step relation `CStep` below.  On a connect exception the `except` block
(lines 122-127) closes the half-open client (teardown errors swallowed) and
re-raises.  Note line 65 stores the target address before the connect
attempt, so it survives a failed connect. -/
def scan_and_connect (env : ScanEnv) (s : BLEState) (name : String) : ScanOutcome :=
  if env.bleakAvailable = false then
    ⟨.exn .bleakNotInstalled, s, []⟩
  else if s.connected then
    ⟨.ok true, s, []⟩
  else
    match findTarget name env.devices with
    | none => ⟨.ok false, s, [.discover]⟩
    | some d =>
      let s1 : BLEState := { s with address := some d.address }
      match env.connectErr with
      | some msg =>
        ⟨.exn (.connectFailed msg), s1, [.discover, .openConn d.address, .closeConn]⟩
      | none =>
        let services := (pollServices env.servicesAt).1
        ⟨.ok true,
         { s1 with
            client := some d.address,
            char_uuid := some (resolveCharUuid services),
            connected := true },
         [.discover, .openConn d.address]⟩

/-- `BLEController.disconnect` (lines 129-138).  The transport teardown runs
only `if self.client and self.connected` (line 131); whether it raises
(`teardownFails`) is irrelevant to the result because the exception is
swallowed (lines 134-135); the three fields are then cleared
unconditionally.  `self.address` is NOT touched. -/
def disconnect (s : BLEState) (teardownFails : Bool) : BLEState × List Event :=
  let evs := if s.client.isSome && s.connected then [Event.closeConn] else []
  let _ := teardownFails
  ({ s with client := none, char_uuid := none, connected := false }, evs)

/-- Outcome of one `send` call. -/
structure SendOutcome where
  result : PyResult Unit
  state : BLEState
  events : List Event
deriving DecidableEq

/-- `BLEController.send` (lines 140-144).  The guard is Python truthiness of
`self.client and self.connected and self.char_uuid`; on failure it raises
`RuntimeError("Not connected")`.  `writeErr` says whether
`write_gatt_char` raises (with which message). -/
def send (writeErr : Option String) (s : BLEState) (payload : List Nat)
    (require_response : Bool) : SendOutcome :=
  match s.client, s.char_uuid with
  | some _, some u =>
    if s.connected && pyTruthyStr u then
      match writeErr with
      | some msg => ⟨.exn (.writeFailed msg), s, [.write u payload require_response]⟩
      | none => ⟨.ok (), s, [.write u payload require_response]⟩
    else ⟨.exn .notConnected, s, []⟩
  | _, _ => ⟨.exn .notConnected, s, []⟩

/-! ## The command channel (App.on_button / App._send_command) -/

/-- UTF-8 encoding of one code point, as bytes (values < 256). -/
def utf8Bytes (c : Char) : List Nat :=
  let n := c.toNat
  if n < 0x80 then [n]
  else if n < 0x800 then
    [0xC0 + n / 64, 0x80 + n % 64]
  else if n < 0x10000 then
    [0xE0 + n / 4096, 0x80 + (n / 64) % 64, 0x80 + n % 64]
  else
    [0xF0 + n / 262144, 0x80 + (n / 4096) % 64, 0x80 + (n / 64) % 64, 0x80 + n % 64]

/-- UTF-8 encoding of a command string (`base.encode("utf-8")`, line 269). -/
def pyEncodeUtf8 (s : String) : List Nat :=
  (s.data.map utf8Bytes).flatten

/-- `payload.decode("utf-8", errors="replace")` (line 296).  Every payload in
this program is the UTF-8 encoding of an ASCII command name, on which this
per-byte decoder agrees with CPython; a non-ASCII byte (never produced here)
is mapped to the replacement character without multi-byte reassembly. -/
def pyDecodeUtf8Replace (bs : List Nat) : String :=
  String.mk (bs.map (fun b => if b < 0x80 then Char.ofNat b else Char.ofNat 0xFFFD))

/-- Outcome of one `_send_command` call: result, post-state, transport
events, and the status texts posted to the UI, in order. -/
structure CommandOutcome where
  result : PyResult Unit
  state : BLEState
  events : List Event
  statuses : List String
deriving DecidableEq

/-- Status text of line 291: `f"Device '{DEVICE_NAME}' not found"`. -/
def notFoundStatus : String := "Device \x27" ++ DEVICE_NAME ++ "\x27 not found"

/-- Lines 294-300 of `_send_command`: the write attempt and its status. -/
def sendPhase (writeErr : Option String) (s : BLEState) (payload : List Nat)
    (evs : List Event) (sts : List String) : CommandOutcome :=
  let so := send writeErr s payload REQUIRE_RESPONSE_ON_WRITE
  match so.result with
  | .ok _ => ⟨.ok (), so.state, evs ++ so.events,
      sts ++ ["Sent: " ++ pyDecodeUtf8Replace payload]⟩
  | .exn e => ⟨.exn e, so.state, evs ++ so.events,
      sts ++ ["Send failed: " ++ errText e]⟩

/-- `App._send_command` (lines 280-300): if the controller is not connected,
first run a full `scan_and_connect` with `DEVICE_NAME` and the default
timeout; a raised connect error is re-raised after posting a status, a
`False` return raises `RuntimeError("Device not connected")`; otherwise the
write of lines 294-300 runs. -/
def send_command (env : ScanEnv) (writeErr : Option String) (s : BLEState)
    (payload : List Nat) : CommandOutcome :=
  if s.connected = false then
    match scan_and_connect env s DEVICE_NAME with
    | ⟨.exn e, s1, evs⟩ => ⟨.exn e, s1, evs, ["Connection error: " ++ errText e]⟩
    | ⟨.ok false, s1, evs⟩ => ⟨.exn .deviceNotConnected, s1, evs, [notFoundStatus]⟩
    | ⟨.ok true, s1, evs⟩ => sendPhase writeErr s1 payload evs []
  else sendPhase writeErr s payload [] []

/-- `App.on_button` (lines 263-278): look the name up in `COMMANDS`; a
missing or falsy entry shows an error dialog and schedules nothing
(`none`); otherwise `_send_command` runs on the UTF-8 payload. -/
def on_button (env : ScanEnv) (writeErr : Option String) (s : BLEState)
    (name : String) : Option CommandOutcome :=
  match COMMANDS.lookup name with
  | none => none
  | some base =>
    if pyTruthyStr base then some (send_command env writeErr s (pyEncodeUtf8 base))
    else none

/-! ## Derived notions used by the claims -/

/-- The case-insensitive match of line 100 against the well-known UUID. -/
def matchesKnown (ch : Characteristic) : Bool :=
  pyLower ch.uuid = pyLower COMMAND_CHAR_UUID

/-- A write-capable characteristic (the membership test of line 110). -/
def isWritableChar (ch : Characteristic) : Bool :=
  ch.properties.contains "write" || ch.properties.contains "write-without-response"

/-- All exposed characteristics, in service order then characteristic order. -/
def allChars (services : List Service) : List Characteristic :=
  (services.map Service.characteristics).flatten

/-- Is this trace entry a transport write call? -/
def isWriteEvent : Event → Bool
  | .write _ _ _ => true
  | _ => false

/-- Does a trace contain a transport write call? -/
def hasWrite (evs : List Event) : Bool := evs.any isWriteEvent

/-- The connection-state invariant of spec §3: a ConnectionHandle is held iff
the state is Connected, and a Connected state also holds a truthy
CharacteristicRef (so the `send` guard of line 142 is decided by the
connected flag alone). -/
def Inv (s : BLEState) : Prop :=
  (s.client.isSome = true ↔ s.connected = true) ∧
  (s.connected = true → ∃ u, s.char_uuid = some u ∧ u ≠ "")

/-! ## Interleaving model of two concurrent submissions

Each task runs one background submission — `App._send_command` (the send
button), `App._connect_and_update` (auto-connect / Reconnect), or
`BLEController.disconnect` (the Disconnect button or shutdown) — on a shared
controller.  asyncio is cooperatively scheduled: context switches happen at
await points, and every controller mutation occurs while holding
`self._lock`.  The model below cuts each task's execution at (a superset of)
its await points, so it admits every interleaving the event loop can
produce, and lets a scheduler pick any enabled task at every step. -/

/-- The background operation a task runs. -/
inductive Op
  | sendOp
  | connectOp
  | disconnectOp
deriving DecidableEq

/-- Program counter of one task.
  * `start`: entry — for a send, about to test `self.ble.connected`
    (line 281); for a connect, about to enter `scan_and_connect` (line 48);
    for a disconnect, about to await the lock (line 130);
  * `acq`: about to await the lock inside `scan_and_connect` (line 51);
  * `disc`: holding the lock, about to discover (line 55);
  * `opening`: holding the lock, about to `client.connect()` (line 72);
  * `fin`: holding the lock, about to poll services, resolve the
    characteristic and finalize (lines 83-121), then release;
  * `sendAcq`: about to await the lock inside `send` (line 141);
  * `write`: holding the lock, about to run the guarded write (142-144);
  * `dAcq`: about to await the lock inside `disconnect` (line 130);
  * `dTear`: holding the lock, about to tear down and clear (131-138),
    then release;
  * `done` / `failed`: the submission returned / raised. -/
inductive PC
  | start
  | acq
  | disc
  | opening
  | fin
  | sendAcq
  | write
  | dAcq
  | dTear
  | done
  | failed
deriving DecidableEq

/-- Global configuration: shared controller state, the asyncio lock holder,
the two program counters, and counters of transport calls made so far. -/
structure CConfig where
  ble : BLEState
  lockHeld : Option Bool
  pcA : PC
  pcB : PC
  nDiscover : Nat
  nOpen : Nat
  nWrite : Nat
deriving DecidableEq

/-- Program counter of task `i` (task ids are `false` and `true`). -/
def pcOf (c : CConfig) (i : Bool) : PC := if i then c.pcB else c.pcA

/-- Replace task `i`'s program counter. -/
def setPc (c : CConfig) (i : Bool) (p : PC) : CConfig :=
  if i then { c with pcB := p } else { c with pcA := p }

/-- One atomic step of task `i` running operation `op`, mirroring the source
around the await points; `none` when the task is blocked on the lock or
already terminated.  `wErr` is the transport's write behaviour, as in
`send`.  A send (`_send_command`) raises on a failed connect, so its failure
branches end in `failed`; a connect (`_connect_and_update`) catches every
exception of `scan_and_connect` (lines 219-226) and only posts a status, so
all its branches end in `done`; a disconnect swallows teardown errors and
always clears and completes. -/
def taskStep (env : ScanEnv) (wErr : Option String) (op : Op) (c : CConfig) (i : Bool) :
    Option CConfig :=
  match op, pcOf c i with
  | .sendOp, .start =>
    if c.ble.connected then some (setPc c i .sendAcq)
    else if env.bleakAvailable = false then some (setPc c i .failed)
    else some (setPc c i .acq)
  | .sendOp, .acq =>
    if c.lockHeld = none then
      if c.ble.connected then some (setPc c i .sendAcq)
      else some { setPc c i .disc with lockHeld := some i }
    else none
  | .sendOp, .disc =>
    if c.lockHeld = some i then
      match findTarget DEVICE_NAME env.devices with
      | none => some { setPc c i .failed with lockHeld := none, nDiscover := c.nDiscover + 1 }
      | some d => some { setPc c i .opening with
          ble := { c.ble with address := some d.address }, nDiscover := c.nDiscover + 1 }
    else none
  | .sendOp, .opening =>
    if c.lockHeld = some i then
      match env.connectErr with
      | some _ => some { setPc c i .failed with lockHeld := none, nOpen := c.nOpen + 1 }
      | none => some { setPc c i .fin with nOpen := c.nOpen + 1 }
    else none
  | .sendOp, .fin =>
    if c.lockHeld = some i then
      some { setPc c i .sendAcq with
        ble := { c.ble with
          client := c.ble.address,
          char_uuid := some (resolveCharUuid (pollServices env.servicesAt).1),
          connected := true },
        lockHeld := none }
    else none
  | .sendOp, .sendAcq =>
    if c.lockHeld = none then some { setPc c i .write with lockHeld := some i }
    else none
  | .sendOp, .write =>
    if c.lockHeld = some i then
      if c.ble.client.isSome && c.ble.connected && pyTruthyOptStr c.ble.char_uuid then
        match wErr with
        | some _ => some { setPc c i .failed with lockHeld := none, nWrite := c.nWrite + 1 }
        | none => some { setPc c i .done with lockHeld := none, nWrite := c.nWrite + 1 }
      else some { setPc c i .failed with lockHeld := none }
    else none
  | .connectOp, .start =>
    if env.bleakAvailable = false then some (setPc c i .done)
    else some (setPc c i .acq)
  | .connectOp, .acq =>
    if c.lockHeld = none then
      if c.ble.connected then some (setPc c i .done)
      else some { setPc c i .disc with lockHeld := some i }
    else none
  | .connectOp, .disc =>
    if c.lockHeld = some i then
      match findTarget DEVICE_NAME env.devices with
      | none => some { setPc c i .done with lockHeld := none, nDiscover := c.nDiscover + 1 }
      | some d => some { setPc c i .opening with
          ble := { c.ble with address := some d.address }, nDiscover := c.nDiscover + 1 }
    else none
  | .connectOp, .opening =>
    if c.lockHeld = some i then
      match env.connectErr with
      | some _ => some { setPc c i .done with lockHeld := none, nOpen := c.nOpen + 1 }
      | none => some { setPc c i .fin with nOpen := c.nOpen + 1 }
    else none
  | .connectOp, .fin =>
    if c.lockHeld = some i then
      some { setPc c i .done with
        ble := { c.ble with
          client := c.ble.address,
          char_uuid := some (resolveCharUuid (pollServices env.servicesAt).1),
          connected := true },
        lockHeld := none }
    else none
  | .disconnectOp, .start => some (setPc c i .dAcq)
  | .disconnectOp, .dAcq =>
    if c.lockHeld = none then some { setPc c i .dTear with lockHeld := some i }
    else none
  | .disconnectOp, .dTear =>
    if c.lockHeld = some i then
      some { setPc c i .done with
        ble := { c.ble with client := none, char_uuid := none, connected := false },
        lockHeld := none }
    else none
  | _, _ => none

/-- Both submissions start at `start` on a fresh controller, lock free. -/
def initConfig : CConfig :=
  { ble := initState, lockHeld := none, pcA := .start, pcB := .start,
    nDiscover := 0, nOpen := 0, nWrite := 0 }

/-- Configurations reachable from `initConfig` under some schedule, where
task `i` runs operation `ops i`. -/
inductive Reach (env : ScanEnv) (wErr : Option String) (ops : Bool → Op) : CConfig → Prop
  | init : Reach env wErr ops initConfig
  | step {c c2 : CConfig} (i : Bool) :
      Reach env wErr ops c → taskStep env wErr (ops i) c i = some c2 →
      Reach env wErr ops c2

/-- Program counters that hold the lock (the exclusive sections of
connect, send and disconnect). -/
def isLockPC : PC → Bool
  | .disc | .opening | .fin | .write | .dTear => true
  | _ => false

/-- Program counters inside the connect sequence. -/
def inConnPhase : PC → Bool
  | .disc | .opening | .fin => true
  | _ => false

/-- Program counters after the transport open, before finalization. -/
def inOpenFin : PC → Bool
  | .opening | .fin => true
  | _ => false

/-- Program counters past the (possibly skipped) connect sequence. -/
def inPost : PC → Bool
  | .sendAcq | .write | .done => true
  | _ => false

/-- Number of `true`s among two booleans. -/
def cnt (b1 b2 : Bool) : Nat := (if b1 then 1 else 0) + (if b2 then 1 else 0)

/-- The inductive invariant of the two-submission system: lock-ownership
agrees with the program counters, connect-phase tasks see an unconnected
controller while post-phase tasks see a connected one with usable handle and
characteristic, and the transport-call counters are determined by the
phases. -/
def Phi (c : CConfig) : Prop :=
  (isLockPC c.pcA = true ↔ c.lockHeld = some false) ∧
  (isLockPC c.pcB = true ↔ c.lockHeld = some true) ∧
  (inConnPhase c.pcA = true → c.ble.connected = false) ∧
  (inConnPhase c.pcB = true → c.ble.connected = false) ∧
  (inPost c.pcA = true → c.ble.connected = true) ∧
  (inPost c.pcB = true → c.ble.connected = true) ∧
  (c.ble.connected = true → c.ble.client.isSome = true ∧ pyTruthyOptStr c.ble.char_uuid = true) ∧
  (inOpenFin c.pcA = true → c.ble.address.isSome = true) ∧
  (inOpenFin c.pcB = true → c.ble.address.isSome = true) ∧
  c.nDiscover = (if c.ble.connected then 1 else 0) + cnt (inOpenFin c.pcA) (inOpenFin c.pcB) ∧
  c.nOpen = (if c.ble.connected then 1 else 0) + cnt (c.pcA = PC.fin) (c.pcB = PC.fin) ∧
  c.nWrite = cnt (c.pcA = PC.done) (c.pcB = PC.done) ∧
  (c.pcA = PC.failed → False) ∧
  (c.pcB = PC.failed → False)

/-- The lock invariant, independent of the adapter, the write outcome and
the operations run: a task is inside an exclusive section exactly when it
holds the asyncio lock. -/
def LockInv (c : CConfig) : Prop :=
  (isLockPC c.pcA = true ↔ c.lockHeld = some false) ∧
  (isLockPC c.pcB = true ↔ c.lockHeld = some true)

/-! ## Concrete instances used by witnesses -/

/-- A benign adapter: the target is discovered, connect succeeds, the
services list stays empty. -/
def envOk : ScanEnv :=
  { bleakAvailable := true,
    devices := [{ name := some "ardubotr4", address := "aa:bb" }],
    connectErr := none,
    servicesAt := fun _ => [] }

/-- A connected controller state. -/
def stConn : BLEState :=
  { client := some "aa:bb", char_uuid := some COMMAND_CHAR_UUID,
    address := some "aa:bb", connected := true }

/-! ## Basic lemmas -/

theorem pyTruthyStr_iff {s : String} : pyTruthyStr s = true ↔ s ≠ "" := by
  simp [pyTruthyStr]

theorem pyLower_eq_empty_iff {s : String} : pyLower s = "" ↔ s = "" := by
  simp [pyLower, String.ext_iff]

theorem matchesKnown_iff {ch : Characteristic} :
    matchesKnown ch = true ↔ pyLower ch.uuid = pyLower COMMAND_CHAR_UUID := by
  simp [matchesKnown]

theorem matchesKnown_uuid_ne {ch : Characteristic} (h : matchesKnown ch = true) :
    ch.uuid ≠ "" := by
  intro he
  rw [matchesKnown_iff, he] at h
  exact absurd h (by decide)

theorem resolveCharUuid_ne_empty (services : List Service) :
    resolveCharUuid services ≠ "" := by
  unfold resolveCharUuid pyOrStr
  cases h : resolveChosen services with
  | none => decide
  | some s =>
    show (if pyTruthyStr s = true then s else COMMAND_CHAR_UUID) ≠ ""
    by_cases hs : pyTruthyStr s = true
    · rw [if_pos hs]
      exact pyTruthyStr_iff.mp hs
    · rw [if_neg hs]
      decide

theorem send_state_eq (w : Option String) (s : BLEState) (p : List Nat) (r : Bool) :
    (send w s p r).state = s := by
  unfold send
  cases hc : s.client <;> cases hu : s.char_uuid <;> simp only [hc, hu] <;> try rfl
  split
  · cases w <;> rfl
  · rfl

theorem send_not_connected (w : Option String) {s : BLEState} (hc : s.connected = false)
    (p : List Nat) (r : Bool) : send w s p r = ⟨.exn .notConnected, s, []⟩ := by
  unfold send
  cases s.client <;> cases s.char_uuid <;> simp [hc]

theorem send_guard_ok (w : Option String) {s : BLEState} (hInv : Inv s)
    (hc : s.connected = true) (p : List Nat) (r : Bool) :
    ∃ u, s.char_uuid = some u ∧ u ≠ "" ∧
      send w s p r =
        ⟨(match w with | some msg => .exn (.writeFailed msg) | none => .ok ()),
         s, [.write u p r]⟩ := by
  obtain ⟨u, hu, hne⟩ := hInv.2 hc
  have hcl : s.client.isSome = true := hInv.1.mpr hc
  refine ⟨u, hu, hne, ?_⟩
  cases hclv : s.client with
  | none => rw [hclv] at hcl; simp at hcl
  | some cl =>
    unfold send
    simp only [hclv, hu]
    rw [if_pos (by simp [hc, pyTruthyStr_iff.mpr hne])]
    cases w <;> rfl

/-! ## Resolution-policy lemmas -/

theorem innerKnown_find_some {chars : List Characteristic} {ch : Characteristic}
    (h : chars.find? matchesKnown = some ch) (acc : Option String) :
    innerKnown (pyLower COMMAND_CHAR_UUID) chars acc = some ch.uuid := by
  induction chars with
  | nil => simp at h
  | cons c rest ih =>
    by_cases hm : pyLower c.uuid = pyLower COMMAND_CHAR_UUID
    · rw [List.find?_cons_of_pos _ (matchesKnown_iff.mpr hm)] at h
      cases h
      simp [innerKnown, hm]
    · rw [List.find?_cons_of_neg _ (fun hb => hm (matchesKnown_iff.mp hb))] at h
      simp [innerKnown, hm]
      exact ih h

theorem innerKnown_find_none {chars : List Characteristic}
    (h : chars.find? matchesKnown = none) (acc : Option String) :
    innerKnown (pyLower COMMAND_CHAR_UUID) chars acc = acc := by
  induction chars with
  | nil => simp [innerKnown]
  | cons c rest ih =>
    rw [List.find?_eq_none] at h
    have hm : ¬ pyLower c.uuid = pyLower COMMAND_CHAR_UUID := by
      intro hp
      exact h c (by simp) (matchesKnown_iff.mpr hp)
    simp only [innerKnown, if_neg hm]
    exact ih (List.find?_eq_none.mpr fun x hx => h x (by simp [hx]))

theorem allChars_cons (svc : Service) (rest : List Service) :
    allChars (svc :: rest) = svc.characteristics ++ allChars rest := by
  simp [allChars]

theorem outerKnown_eq (services : List Service) :
    outerKnown (pyLower COMMAND_CHAR_UUID) services none =
      ((allChars services).find? matchesKnown).map (fun ch => ch.uuid) := by
  induction services with
  | nil => simp [outerKnown, allChars]
  | cons svc rest ih =>
    rw [allChars_cons, List.find?_append]
    cases h : svc.characteristics.find? matchesKnown with
    | some ch =>
      have hne : ch.uuid ≠ "" := matchesKnown_uuid_ne (List.find?_some h)
      simp [outerKnown, innerKnown_find_some h, pyTruthyOptStr, pyTruthyStr_iff.mpr hne]
    | none =>
      simp [outerKnown, innerKnown_find_none h, pyTruthyOptStr, ih]

theorem innerWritable_find_some {chars : List Characteristic} {ch : Characteristic}
    (h : chars.find? isWritableChar = some ch) (acc : Option String) :
    innerWritable chars acc = some ch.uuid := by
  induction chars with
  | nil => simp at h
  | cons c rest ih =>
    by_cases hw : (c.properties.contains "write" || c.properties.contains "write-without-response") = true
    · rw [List.find?_cons_of_pos _ (show isWritableChar c = true from hw)] at h
      cases h
      simp only [innerWritable, if_pos hw]
    · rw [List.find?_cons_of_neg _ (show ¬ isWritableChar c = true from hw)] at h
      simp only [innerWritable, if_neg hw]
      exact ih h

theorem innerWritable_find_none {chars : List Characteristic}
    (h : chars.find? isWritableChar = none) (acc : Option String) :
    innerWritable chars acc = acc := by
  induction chars with
  | nil => simp [innerWritable]
  | cons c rest ih =>
    rw [List.find?_eq_none] at h
    have hw : ¬ (c.properties.contains "write" || c.properties.contains "write-without-response") = true := by
      intro hp
      exact h c (by simp) hp
    simp only [innerWritable, if_neg hw]
    exact ih (List.find?_eq_none.mpr fun x hx => h x (by simp [hx]))

theorem outerWritable_eq (services : List Service)
    (hne : ∀ ch ∈ allChars services, isWritableChar ch = true → ch.uuid ≠ "") :
    outerWritable services none =
      ((allChars services).find? isWritableChar).map (fun ch => ch.uuid) := by
  induction services with
  | nil => simp [outerWritable, allChars]
  | cons svc rest ih =>
    rw [allChars_cons, List.find?_append]
    cases h : svc.characteristics.find? isWritableChar with
    | some ch =>
      have hmem : ch ∈ allChars (svc :: rest) := by
        rw [allChars_cons]
        exact List.mem_append_left _ (List.mem_of_find?_eq_some h)
      have hu : ch.uuid ≠ "" := hne ch hmem (List.find?_some h)
      simp [outerWritable, innerWritable_find_some h, pyTruthyOptStr, pyTruthyStr_iff.mpr hu]
    | none =>
      have hrest : ∀ ch ∈ allChars rest, isWritableChar ch = true → ch.uuid ≠ "" := by
        intro ch hm hw
        exact hne ch (by rw [allChars_cons]; exact List.mem_append_right _ hm) hw
      simp [outerWritable, innerWritable_find_none h, pyTruthyOptStr, ih hrest]

theorem resolveCharUuid_of_known {services : List Service} {ch : Characteristic}
    (h : (allChars services).find? matchesKnown = some ch) :
    resolveCharUuid services = ch.uuid := by
  have hne : ch.uuid ≠ "" := matchesKnown_uuid_ne (List.find?_some h)
  have hsv : services.isEmpty = false := by
    cases services with
    | nil => simp [allChars] at h
    | cons a l => simp
  unfold resolveCharUuid resolveChosen
  rw [hsv]
  simp only [Bool.false_eq_true, if_false, outerKnown_eq, h, Option.map_some]
  simp [pyTruthyOptStr, pyTruthyStr_iff.mpr hne, pyOrStr]

theorem resolveCharUuid_of_writable {services : List Service} {ch : Characteristic}
    (hk : (allChars services).find? matchesKnown = none)
    (hw : (allChars services).find? isWritableChar = some ch)
    (hne : ∀ c ∈ allChars services, isWritableChar c = true → c.uuid ≠ "") :
    resolveCharUuid services = ch.uuid := by
  have hu : ch.uuid ≠ "" := hne ch (List.mem_of_find?_eq_some hw) (List.find?_some hw)
  have hsv : services.isEmpty = false := by
    cases services with
    | nil => simp [allChars] at hw
    | cons a l => simp
  unfold resolveCharUuid resolveChosen
  rw [hsv]
  simp only [Bool.false_eq_true, if_false, outerKnown_eq, hk, Option.map_none]
  simp [pyTruthyOptStr, outerWritable_eq services hne, hw,
    pyTruthyStr_iff.mpr hu, pyOrStr]

theorem resolveCharUuid_of_neither {services : List Service}
    (hk : (allChars services).find? matchesKnown = none)
    (hw : (allChars services).find? isWritableChar = none) :
    resolveCharUuid services = COMMAND_CHAR_UUID := by
  cases hsv : services.isEmpty with
  | true =>
    unfold resolveCharUuid resolveChosen
    rw [hsv]
    simp [pyOrStr]
  | false =>
    have hne : ∀ c ∈ allChars services, isWritableChar c = true → c.uuid ≠ "" := by
      rw [List.find?_eq_none] at hw
      intro c hm hwc
      exact absurd hwc (hw c hm)
    unfold resolveCharUuid resolveChosen
    rw [hsv]
    simp only [Bool.false_eq_true, if_false, outerKnown_eq, hk, Option.map_none]
    simp [pyTruthyOptStr, outerWritable_eq services hne, hw, pyOrStr]

/-! ## Branch lemmas for scan_and_connect and the command channel -/

theorem scan_no_target {env : ScanEnv} {s : BLEState} {name : String}
    (hb : env.bleakAvailable = true) (hc : s.connected = false)
    (ht : findTarget name env.devices = none) :
    scan_and_connect env s name = ⟨.ok false, s, [.discover]⟩ := by
  simp [scan_and_connect, hb, hc, ht]

theorem scan_connect_err {env : ScanEnv} {s : BLEState} {name : String}
    {d : Device} {msg : String}
    (hb : env.bleakAvailable = true) (hc : s.connected = false)
    (ht : findTarget name env.devices = some d) (he : env.connectErr = some msg) :
    scan_and_connect env s name =
      ⟨.exn (.connectFailed msg), { s with address := some d.address },
       [.discover, .openConn d.address, .closeConn]⟩ := by
  simp [scan_and_connect, hb, hc, ht, he]

theorem scan_success {env : ScanEnv} {s : BLEState} {name : String} {d : Device}
    (hb : env.bleakAvailable = true) (hc : s.connected = false)
    (ht : findTarget name env.devices = some d) (he : env.connectErr = none) :
    scan_and_connect env s name =
      ⟨.ok true,
       { s with
          address := some d.address,
          client := some d.address,
          char_uuid := some (resolveCharUuid (pollServices env.servicesAt).1),
          connected := true },
       [.discover, .openConn d.address]⟩ := by
  simp [scan_and_connect, hb, hc, ht, he]

theorem inv_scan (env : ScanEnv) (s : BLEState) (name : String) (h : Inv s) :
    Inv (scan_and_connect env s name).state := by
  cases hb : env.bleakAvailable with
  | false => simpa [scan_and_connect, hb] using h
  | true =>
    cases hc : s.connected with
    | true => simpa [scan_and_connect, hb, hc] using h
    | false =>
      cases ht : findTarget name env.devices with
      | none => simpa [scan_no_target hb hc ht] using h
      | some d =>
        cases he : env.connectErr with
        | some msg =>
          rw [scan_connect_err hb hc ht he]
          exact ⟨h.1, h.2⟩
        | none =>
          rw [scan_success hb hc ht he]
          refine ⟨by simp, fun _ => ?_⟩
          exact ⟨_, rfl, resolveCharUuid_ne_empty _⟩

theorem sendPhase_state_eq (w : Option String) (s : BLEState) (p : List Nat)
    (evs : List Event) (sts : List String) : (sendPhase w s p evs sts).state = s := by
  unfold sendPhase
  cases h : (send w s p REQUIRE_RESPONSE_ON_WRITE).result <;>
    simp [h, send_state_eq]

theorem sendPhase_ok {s : BLEState} (hInv : Inv s) (hc : s.connected = true)
    (p : List Nat) (evs : List Event) (sts : List String) :
    ∃ u, s.char_uuid = some u ∧ u ≠ "" ∧
      sendPhase none s p evs sts =
        ⟨.ok (), s, evs ++ [.write u p REQUIRE_RESPONSE_ON_WRITE],
         sts ++ ["Sent: " ++ pyDecodeUtf8Replace p]⟩ := by
  obtain ⟨u, hu, hne, hsend⟩ := send_guard_ok none hInv hc p REQUIRE_RESPONSE_ON_WRITE
  refine ⟨u, hu, hne, ?_⟩
  unfold sendPhase
  rw [hsend]

theorem sendPhase_writeErr {s : BLEState} (hInv : Inv s) (hc : s.connected = true)
    (msg : String) (p : List Nat) (evs : List Event) (sts : List String) :
    ∃ u, s.char_uuid = some u ∧ u ≠ "" ∧
      sendPhase (some msg) s p evs sts =
        ⟨.exn (.writeFailed msg), s, evs ++ [.write u p REQUIRE_RESPONSE_ON_WRITE],
         sts ++ ["Send failed: " ++ msg]⟩ := by
  obtain ⟨u, hu, hne, hsend⟩ := send_guard_ok (some msg) hInv hc p REQUIRE_RESPONSE_ON_WRITE
  refine ⟨u, hu, hne, ?_⟩
  unfold sendPhase
  rw [hsend]
  rfl

theorem send_command_connected {env : ScanEnv} {w : Option String} {s : BLEState}
    (hc : s.connected = true) (p : List Nat) :
    send_command env w s p = sendPhase w s p [] [] := by
  simp [send_command, hc]

theorem inv_send_command (env : ScanEnv) (w : Option String) (s : BLEState)
    (p : List Nat) (h : Inv s) : Inv (send_command env w s p).state := by
  cases hc : s.connected with
  | true =>
    rw [send_command_connected hc, sendPhase_state_eq]
    exact h
  | false =>
    have hsc := inv_scan env s DEVICE_NAME h
    unfold send_command
    rw [hc]
    simp only [if_pos rfl]
    cases hr : scan_and_connect env s DEVICE_NAME with
    | mk result st evs =>
      rw [hr] at hsc
      cases result with
      | exn e => exact hsc
      | ok b =>
        cases b with
        | false => exact hsc
        | true =>
          show Inv (sendPhase w st p evs []).state
          rw [sendPhase_state_eq]
          exact hsc

/-! ## findTarget lemmas -/

theorem findTarget_none {name : String} {devices : List Device}
    (h : ∀ d ∈ devices, ∀ n, d.name = some n → pyLower n ≠ pyLower name) :
    findTarget name devices = none := by
  induction devices with
  | nil => rfl
  | cons d rest ih =>
    have hm : matchName name d = false := by
      unfold matchName
      cases hn : d.name with
      | none => rfl
      | some n =>
        simp [h d (by simp) n hn]
    simp only [findTarget, hm, Bool.false_eq_true, if_false]
    exact ih fun x hx n hn => h x (by simp [hx]) n hn

theorem findTarget_first {name : String} {pre post : List Device} {d : Device}
    (hname : pyLower name ≠ "")
    (hpre : ∀ x ∈ pre, ∀ n, x.name = some n → pyLower n ≠ pyLower name)
    (hd : ∃ n, d.name = some n ∧ pyLower n = pyLower name) :
    findTarget name (pre ++ d :: post) = some d := by
  induction pre with
  | nil =>
    obtain ⟨n, hn, heq⟩ := hd
    have hne : n ≠ "" := by
      intro he
      rw [he] at heq
      exact hname (heq.symm.trans (pyLower_eq_empty_iff.mpr rfl))
    have hm : matchName name d = true := by
      unfold matchName
      rw [hn]
      simp [pyTruthyStr_iff.mpr hne, heq]
    simp [findTarget, hm]
  | cons x rest ih =>
    have hm : matchName name x = false := by
      unfold matchName
      cases hn : x.name with
      | none => rfl
      | some n => simp [hpre x (by simp) n hn]
    simp only [List.cons_append, findTarget, hm, Bool.false_eq_true, if_false]
    exact ih fun y hy n hn => hpre y (by simp [hy]) n hn

/-! ## Polling lemmas -/

theorem pollLoop_retries_le (f : Nat → List Service) :
    ∀ (fuel : Nat) (svcs : List Service) (retries : Nat), retries ≤ 10 →
      (pollLoop f svcs retries fuel).2 ≤ 10 := by
  intro fuel
  induction fuel with
  | zero => intro svcs retries h; simpa [pollLoop] using h
  | succ n ih =>
    intro svcs retries h
    unfold pollLoop
    by_cases hcond : (svcs.isEmpty && decide (retries < 10)) = true
    · rw [if_pos hcond]
      exact ih _ (retries + 1)
        (by have := of_decide_eq_true (Bool.and_elim_right hcond); omega)
    · rw [if_neg hcond]
      exact h

theorem pollLoop_empty (f : Nat → List Service) (hf : ∀ k, f k = []) :
    ∀ (fuel retries : Nat), retries ≤ 10 → 10 - retries < fuel →
      pollLoop f [] retries fuel = ([], 10) := by
  intro fuel
  induction fuel with
  | zero => intro r h1 h2; omega
  | succ n ih =>
    intro r h1 h2
    unfold pollLoop
    by_cases hr : r < 10
    · rw [if_pos (by simp [hr]), hf (r + 1)]
      exact ih (r + 1) (by omega) (by omega)
    · have hr10 : r = 10 := by omega
      rw [if_neg (by simp [hr]), hr10]

theorem pollServices_retries_le (f : Nat → List Service) : (pollServices f).2 ≤ 10 := by
  unfold pollServices
  exact pollLoop_retries_le f 11 (f 0) 0 (by omega)

theorem pollServices_empty (f : Nat → List Service) (hf : ∀ k, f k = []) :
    pollServices f = ([], 10) := by
  unfold pollServices
  rw [hf 0]
  exact pollLoop_empty f hf 11 0 (by omega) (by omega)

/-! ## Further command-channel helpers -/

theorem sendPhase_events (w : Option String) (s : BLEState) (p : List Nat)
    (evs : List Event) (sts : List String) :
    (sendPhase w s p evs sts).events = evs ++ (send w s p REQUIRE_RESPONSE_ON_WRITE).events := by
  unfold sendPhase
  cases h : (send w s p REQUIRE_RESPONSE_ON_WRITE).result <;> simp [h]

theorem stConn_inv : Inv stConn := by
  refine ⟨by simp [stConn], fun _ => ⟨COMMAND_CHAR_UUID, rfl, by decide⟩⟩

theorem on_button_run {env : ScanEnv} {s : BLEState} (hInv : Inv s) (hc : s.connected = true)
    {name base : String} (hlk : COMMANDS.lookup name = some base) (hb : base ≠ "") :
    ∃ u, s.char_uuid = some u ∧
      on_button env none s name =
        some ⟨.ok (), s, [.write u (pyEncodeUtf8 base) REQUIRE_RESPONSE_ON_WRITE],
              ["Sent: " ++ pyDecodeUtf8Replace (pyEncodeUtf8 base)]⟩ := by
  obtain ⟨u, hu, hne, hph⟩ := sendPhase_ok hInv hc (pyEncodeUtf8 base) [] []
  refine ⟨u, hu, ?_⟩
  unfold on_button
  rw [hlk]
  show (if pyTruthyStr base = true then some (send_command env none s (pyEncodeUtf8 base))
        else none) = _
  rw [if_pos (pyTruthyStr_iff.mpr hb)]
  rw [send_command_connected hc, hph]
  simp

/-! ## Claim C1 -/

/-- C1 counterexample: a service list with no UUID match whose FIRST
write-capable characteristic reports an empty UUID.  The claim says that
first writable characteristic is selected; the code assigns its empty UUID,
which is falsy, so the `chosen_char_uuid or COMMAND_CHAR_UUID` of line 118
discards it and the well-known identifier is used instead. -/
theorem C1_counterexample :
    (allChars [⟨[⟨"", ["write"]⟩, ⟨"aa", ["write"]⟩]⟩]).any matchesKnown = false ∧
    (allChars [⟨[⟨"", ["write"]⟩, ⟨"aa", ["write"]⟩]⟩]).find? isWritableChar =
      some ⟨"", ["write"]⟩ ∧
    resolveCharUuid [⟨[⟨"", ["write"]⟩, ⟨"aa", ["write"]⟩]⟩] = COMMAND_CHAR_UUID ∧
    COMMAND_CHAR_UUID ≠ "" := by decide

/-- C1 (amended): tier 1 — a case-insensitive UUID match is selected (the
first one, in service then characteristic order); tier 2 — otherwise the
first write-capable characteristic is selected PROVIDED every write-capable
characteristic reports a non-empty UUID (Python truthiness of line 113/118
skips empty-string UUIDs); tier 3 — otherwise, including the empty list, the
well-known identifier is used; and a successful fresh connect always stores
a non-empty write target. -/
theorem C1_resolution_policy :
    (∀ services : List Service,
      ((allChars services).any matchesKnown = true →
        ∃ ch, (allChars services).find? matchesKnown = some ch ∧
          resolveCharUuid services = ch.uuid) ∧
      ((∀ c ∈ allChars services, isWritableChar c = true → c.uuid ≠ "") →
        (allChars services).any matchesKnown = false →
        (allChars services).any isWritableChar = true →
        ∃ ch, (allChars services).find? isWritableChar = some ch ∧
          resolveCharUuid services = ch.uuid) ∧
      ((allChars services).any matchesKnown = false →
        (allChars services).any isWritableChar = false →
        resolveCharUuid services = COMMAND_CHAR_UUID)) ∧
    (∀ (env : ScanEnv) (s : BLEState) (name : String), s.connected = false →
      (scan_and_connect env s name).result = .ok true →
      ∃ u, (scan_and_connect env s name).state.char_uuid = some u ∧ u ≠ "") := by
  constructor
  · intro services
    refine ⟨?_, ?_, ?_⟩
    · intro hany
      obtain ⟨ch, hch⟩ := Option.isSome_iff_exists.mp
        (List.find?_isSome.mpr (by simpa using List.any_eq_true.mp hany))
      exact ⟨ch, hch, resolveCharUuid_of_known hch⟩
    · intro hne hk hany
      obtain ⟨ch, hch⟩ := Option.isSome_iff_exists.mp
        (List.find?_isSome.mpr (by simpa using List.any_eq_true.mp hany))
      have hkn : (allChars services).find? matchesKnown = none :=
        List.find?_eq_none.mpr (List.any_eq_false.mp hk)
      exact ⟨ch, hch, resolveCharUuid_of_writable hkn hch hne⟩
    · intro hk hw
      have hkn : (allChars services).find? matchesKnown = none :=
        List.find?_eq_none.mpr (List.any_eq_false.mp hk)
      have hwn : (allChars services).find? isWritableChar = none :=
        List.find?_eq_none.mpr (List.any_eq_false.mp hw)
      exact resolveCharUuid_of_neither hkn hwn
  · intro env s name hc hres
    cases hb : env.bleakAvailable with
    | false => rw [show scan_and_connect env s name = ⟨.exn .bleakNotInstalled, s, []⟩
        from by simp [scan_and_connect, hb]] at hres; cases hres
    | true =>
      cases ht : findTarget name env.devices with
      | none => rw [scan_no_target hb hc ht] at hres; cases hres
      | some d =>
        cases he : env.connectErr with
        | some msg => rw [scan_connect_err hb hc ht he] at hres; cases hres
        | none =>
          rw [scan_success hb hc ht he]
          exact ⟨_, rfl, resolveCharUuid_ne_empty _⟩

/-- C1 witness: the three amended tiers and the never-absent clause hold on
concrete service lists and a concrete successful connect. -/
theorem C1_witness :
    (∃ ch, (allChars [⟨[⟨"19b10001-e8f2-537e-4f6c-d104768a1214", ["read"]⟩]⟩]).find?
        matchesKnown = some ch ∧
      resolveCharUuid [⟨[⟨"19b10001-e8f2-537e-4f6c-d104768a1214", ["read"]⟩]⟩] = ch.uuid) ∧
    (∃ ch, (allChars [⟨[⟨"bb", ["write-without-response"]⟩]⟩]).find?
        isWritableChar = some ch ∧
      resolveCharUuid [⟨[⟨"bb", ["write-without-response"]⟩]⟩] = ch.uuid) ∧
    resolveCharUuid [⟨[⟨"cc", ["read"]⟩]⟩] = COMMAND_CHAR_UUID ∧
    (∃ u, (scan_and_connect envOk initState DEVICE_NAME).state.char_uuid = some u ∧
      u ≠ "") :=
  ⟨(C1_resolution_policy.1 [⟨[⟨"19b10001-e8f2-537e-4f6c-d104768a1214", ["read"]⟩]⟩]).1
      (by decide),
   (C1_resolution_policy.1 [⟨[⟨"bb", ["write-without-response"]⟩]⟩]).2.1
      (by decide) (by decide) (by decide),
   (C1_resolution_policy.1 [⟨[⟨"cc", ["read"]⟩]⟩]).2.2 (by decide) (by decide),
   C1_resolution_policy.2 envOk initState DEVICE_NAME (by decide) (by decide)⟩

/-! ## Claim C3 -/

/-- C3 counterexample: `disconnect` does NOT clear the stored address (the
PeripheralIdentity's transport-assigned address, `self.address`), so an
entity created by the preceding connect attempt survives. -/
theorem C3_counterexample :
    (disconnect ⟨some "aa:bb", some "cafe", some "aa:bb", true⟩ false).1.address
      = some "aa:bb" ∧
    (disconnect ⟨some "aa:bb", some "cafe", some "aa:bb", true⟩ false).1.address
      ≠ none := by decide

/-- C3 (amended): for every starting state, `disconnect` tears down the
transport connection exactly when one is present, swallows any teardown
error (the result is independent of teardown failure), clears the
ConnectionHandle and CharacteristicRef, always leaves the state
Disconnected, and is idempotent; the stored address is NOT cleared. -/
theorem C3_disconnect_teardown : ∀ (s : BLEState) (t : Bool),
    (disconnect s t).1.client = none ∧
    (disconnect s t).1.char_uuid = none ∧
    (disconnect s t).1.connected = false ∧
    (disconnect s t).1.address = s.address ∧
    disconnect s t = disconnect s (!t) ∧
    (∀ t2, disconnect (disconnect s t).1 t2 = ((disconnect s t).1, [])) ∧
    (disconnect s t).2 = (if s.client.isSome && s.connected then [Event.closeConn] else []) := by
  intro s t
  refine ⟨rfl, rfl, rfl, rfl, rfl, fun t2 => ?_, rfl⟩
  simp [disconnect]

/-! ## Claim C4 -/

/-- C4 counterexample: when the auto-connect attempt fails with a transport
error, `_send_command` re-raises that transport error (after a
"Connection error" status), not a not-connected error; no write happens. -/
theorem C4_counterexample :
    (send_command ⟨true, [⟨some "ardubotr4", "aa:bb"⟩], some "boom", fun _ => []⟩
        none initState [102]).result = .exn (.connectFailed "boom") ∧
    (send_command ⟨true, [⟨some "ardubotr4", "aa:bb"⟩], some "boom", fun _ => []⟩
        none initState [102]).result ≠ .exn .notConnected ∧
    (send_command ⟨true, [⟨some "ardubotr4", "aa:bb"⟩], some "boom", fun _ => []⟩
        none initState [102]).result ≠ .exn .deviceNotConnected ∧
    hasWrite (send_command ⟨true, [⟨some "ardubotr4", "aa:bb"⟩], some "boom", fun _ => []⟩
        none initState [102]).events = false := by decide

/-- C4 (amended): a send while not Connected first attempts a full connect
with the well-known name; if no matching device is found it fails with the
not-connected RuntimeError, leaving the state unchanged; if the transport
open raises, that connect error is re-raised; in both cases no transport
write is performed. -/
theorem C4_send_autoconnect : ∀ (env : ScanEnv) (w : Option String) (s : BLEState)
    (p : List Nat), env.bleakAvailable = true → s.connected = false →
    ((findTarget DEVICE_NAME env.devices = none →
        send_command env w s p = ⟨.exn .deviceNotConnected, s, [.discover], [notFoundStatus]⟩ ∧
        hasWrite (send_command env w s p).events = false) ∧
     (∀ d msg, findTarget DEVICE_NAME env.devices = some d → env.connectErr = some msg →
        send_command env w s p =
          ⟨.exn (.connectFailed msg), { s with address := some d.address },
           [.discover, .openConn d.address, .closeConn],
           ["Connection error: " ++ msg]⟩ ∧
        hasWrite (send_command env w s p).events = false)) := by
  intro env w s p hb hc
  constructor
  · intro ht
    have heq : send_command env w s p
        = ⟨.exn .deviceNotConnected, s, [.discover], [notFoundStatus]⟩ := by
      unfold send_command
      rw [if_pos hc, scan_no_target hb hc ht]
    exact ⟨heq, by rw [heq]; simp [hasWrite, isWriteEvent]⟩
  · intro d msg ht he
    have heq : send_command env w s p
        = ⟨.exn (.connectFailed msg), { s with address := some d.address },
           [.discover, .openConn d.address, .closeConn],
           ["Connection error: " ++ msg]⟩ := by
      unfold send_command
      rw [if_pos hc, scan_connect_err hb hc ht he]
      rfl
    exact ⟨heq, by rw [heq]; simp [hasWrite, isWriteEvent]⟩

/-- C4 witness: both failure modes at concrete inputs. -/
theorem C4_witness :
    (send_command ⟨true, [], none, fun _ => []⟩ none initState [102]
      = ⟨.exn .deviceNotConnected, initState, [.discover], [notFoundStatus]⟩) ∧
    (send_command ⟨true, [⟨some "ardubotr4", "aa:bb"⟩], some "boom", fun _ => []⟩
        none initState [102]
      = ⟨.exn (.connectFailed "boom"), { initState with address := some "aa:bb" },
         [.discover, .openConn "aa:bb", .closeConn], ["Connection error: " ++ "boom"]⟩) :=
  ⟨((C4_send_autoconnect ⟨true, [], none, fun _ => []⟩ none initState [102]
      (by decide) (by decide)).1 (by decide)).1,
   ((C4_send_autoconnect ⟨true, [⟨some "ardubotr4", "aa:bb"⟩], some "boom", fun _ => []⟩
      none initState [102] (by decide) (by decide)).2
      ⟨some "ardubotr4", "aa:bb"⟩ "boom" (by decide) (by decide)).1⟩

/-! ## Claim C5 -/

/-- C5: the connection-state invariant (ConnectionHandle held iff Connected;
Connected states also hold a truthy CharacteristicRef) holds initially and
is preserved by every operation in every branch, and under it the `send`
not-connected guard is decided by the connected flag alone. -/
theorem C5_connection_invariant :
    Inv initState ∧
    (∀ (env : ScanEnv) (s : BLEState) (name : String), Inv s →
      Inv (scan_and_connect env s name).state) ∧
    (∀ (s : BLEState) (t : Bool), Inv (disconnect s t).1) ∧
    (∀ (w : Option String) (s : BLEState) (p : List Nat) (r : Bool), Inv s →
      Inv (send w s p r).state) ∧
    (∀ (env : ScanEnv) (w : Option String) (s : BLEState) (p : List Nat), Inv s →
      Inv (send_command env w s p).state) ∧
    (∀ (w : Option String) (s : BLEState) (p : List Nat) (r : Bool), Inv s →
      ((send w s p r).result = PyResult.exn PyError.notConnected ↔ s.connected = false)) := by
  refine ⟨⟨by simp [initState], by simp [initState]⟩, inv_scan, ?_, ?_, inv_send_command, ?_⟩
  · intro s t
    exact ⟨by simp [disconnect], by simp [disconnect]⟩
  · intro w s p r h
    rw [send_state_eq]
    exact h
  · intro w s p r h
    cases hc : s.connected with
    | false => simp [send_not_connected w hc p r]
    | true =>
      obtain ⟨u, hu, hne, hsend⟩ := send_guard_ok w h hc p r
      rw [hsend]
      constructor
      · intro hres
        cases w <;> simp at hres
      · intro hf
        simp at hf

/-- C5 witness: the invariant at concrete states and operations, and the
guard equivalence on a concrete connected state. -/
theorem C5_witness :
    Inv (scan_and_connect envOk initState DEVICE_NAME).state ∧
    Inv (disconnect stConn false).1 ∧
    ((send none stConn [102] true).result = PyResult.exn PyError.notConnected
      ↔ stConn.connected = false) :=
  ⟨C5_connection_invariant.2.1 envOk initState DEVICE_NAME C5_connection_invariant.1,
   C5_connection_invariant.2.2.1 stConn false,
   C5_connection_invariant.2.2.2.2.2 none stConn [102] true stConn_inv⟩

/-! ## Claim C6 -/

/-- C6: connect is idempotent — when already Connected it returns success
immediately, with no discovery, no transport open and an unchanged state. -/
theorem C6_connect_idempotent : ∀ (env : ScanEnv) (s : BLEState) (name : String),
    env.bleakAvailable = true → s.connected = true →
    scan_and_connect env s name = ⟨.ok true, s, []⟩ := by
  intro env s name hb hc
  simp [scan_and_connect, hb, hc]

/-- C6 witness. -/
theorem C6_witness : scan_and_connect envOk stConn DEVICE_NAME = ⟨.ok true, stConn, []⟩ :=
  C6_connect_idempotent envOk stConn DEVICE_NAME (by decide) (by decide)

/-! ## Claim C7 -/

/-- C7: when no discovered device name equals the target name
case-insensitively, connect returns False after only the discovery call,
with the state unchanged; and when some device matches, the first match (in
discovery order) is the one connected to. -/
theorem C7_scan_no_match :
    (∀ (env : ScanEnv) (s : BLEState), env.bleakAvailable = true → s.connected = false →
       (∀ d ∈ env.devices, ∀ n, d.name = some n → pyLower n ≠ pyLower DEVICE_NAME) →
       scan_and_connect env s DEVICE_NAME = ⟨.ok false, s, [.discover]⟩) ∧
    (∀ (env : ScanEnv) (s : BLEState) (pre post : List Device) (d : Device),
       env.bleakAvailable = true → s.connected = false →
       env.devices = pre ++ d :: post →
       (∀ x ∈ pre, ∀ n, x.name = some n → pyLower n ≠ pyLower DEVICE_NAME) →
       (∃ n, d.name = some n ∧ pyLower n = pyLower DEVICE_NAME) →
       findTarget DEVICE_NAME env.devices = some d ∧
       (scan_and_connect env s DEVICE_NAME).state.address = some d.address) := by
  constructor
  · intro env s hb hc hno
    exact scan_no_target hb hc (findTarget_none hno)
  · intro env s pre post d hb hc hdev hpre hd
    have hft : findTarget DEVICE_NAME env.devices = some d := by
      rw [hdev]
      exact findTarget_first (by decide) hpre hd
    refine ⟨hft, ?_⟩
    cases he : env.connectErr with
    | none => rw [scan_success hb hc hft he]
    | some msg => rw [scan_connect_err hb hc hft he]

/-- C7 witness: a no-match discovery on concrete devices, and a first-match
selection where the match is by case-insensitive equality. -/
theorem C7_witness :
    scan_and_connect ⟨true, [⟨some "other", "x"⟩, ⟨none, "y"⟩], none, fun _ => []⟩
        initState DEVICE_NAME
      = ⟨.ok false, initState, [.discover]⟩ ∧
    (findTarget DEVICE_NAME
        [⟨some "junk", "zz"⟩, ⟨some "ArduBotR4", "aa:bb"⟩, ⟨some "ardubotr4", "cc:dd"⟩]
      = some ⟨some "ArduBotR4", "aa:bb"⟩ ∧
     (scan_and_connect
        ⟨true, [⟨some "junk", "zz"⟩, ⟨some "ArduBotR4", "aa:bb"⟩, ⟨some "ardubotr4", "cc:dd"⟩],
         none, fun _ => []⟩ initState DEVICE_NAME).state.address = some "aa:bb") :=
  ⟨C7_scan_no_match.1 ⟨true, [⟨some "other", "x"⟩, ⟨none, "y"⟩], none, fun _ => []⟩
      initState (by decide) (by decide)
      (by
        intro d hd n hn
        simp only [List.mem_cons, List.not_mem_nil, or_false] at hd
        rcases hd with rfl | rfl
        · cases hn
          decide
        · cases hn),
   C7_scan_no_match.2
      ⟨true, [⟨some "junk", "zz"⟩, ⟨some "ArduBotR4", "aa:bb"⟩, ⟨some "ardubotr4", "cc:dd"⟩],
       none, fun _ => []⟩
      initState [⟨some "junk", "zz"⟩] [⟨some "ardubotr4", "cc:dd"⟩]
      ⟨some "ArduBotR4", "aa:bb"⟩ (by decide) (by decide) (by decide)
      (by
        intro x hx n hn
        simp only [List.mem_cons, List.not_mem_nil, or_false] at hx
        rcases hx with rfl
        cases hn
        decide)
      ⟨"ArduBotR4", rfl, by decide⟩⟩

/-! ## Claim C8 -/

/-- C8: the service-polling loop performs at most 10 retries; an adapter
that always reports no services exhausts exactly 10 retries, and the
connect still completes successfully with the well-known identifier as the
write target. -/
theorem C8_poll_bounded :
    (∀ f, (pollServices f).2 ≤ 10) ∧
    (∀ f, (∀ k, f k = []) → pollServices f = ([], 10)) ∧
    (∀ (env : ScanEnv) (s : BLEState) (name : String) (d : Device),
       env.bleakAvailable = true → s.connected = false →
       findTarget name env.devices = some d → env.connectErr = none →
       (∀ k, env.servicesAt k = []) →
       scan_and_connect env s name =
         ⟨.ok true,
          { s with
             address := some d.address,
             client := some d.address,
             char_uuid := some COMMAND_CHAR_UUID,
             connected := true },
          [.discover, .openConn d.address]⟩) := by
  refine ⟨pollServices_retries_le, pollServices_empty, ?_⟩
  intro env s name d hb hc ht he hemp
  rw [scan_success hb hc ht he]
  have hres : resolveCharUuid (pollServices env.servicesAt).1 = COMMAND_CHAR_UUID := by
    rw [pollServices_empty env.servicesAt hemp]
    decide
  rw [hres]

/-- C8 witness: the bound, the exhausted poll, and the degraded connect on
concrete inputs. -/
theorem C8_witness :
    (pollServices (fun _ => [])).2 ≤ 10 ∧
    pollServices (fun _ => []) = ([], 10) ∧
    scan_and_connect envOk initState DEVICE_NAME =
      ⟨.ok true,
       { initState with
          address := some "aa:bb",
          client := some "aa:bb",
          char_uuid := some COMMAND_CHAR_UUID,
          connected := true },
       [.discover, .openConn "aa:bb"]⟩ :=
  ⟨C8_poll_bounded.1 (fun _ => []),
   C8_poll_bounded.2.1 (fun _ => []) (fun _ => rfl),
   C8_poll_bounded.2.2 envOk initState DEVICE_NAME ⟨some "ardubotr4", "aa:bb"⟩
      (by decide) (by decide) (by decide) (by decide) (fun _ => rfl)⟩

/-! ## Claim C9 -/

/-- C9: for each command in {forward, back, left, right, switch}, a send
while Connected issues exactly one transport write whose payload is the
UTF-8 encoding of the command name with acknowledge=true, and the status
becomes "Sent: " followed by the name; for "forward" the payload is exactly
the bytes of b"forward" and the status is "Sent: forward". -/
theorem C9_button_commands :
    (∀ name, name ∈ ["forward", "back", "left", "right", "switch"] →
       ∀ (env : ScanEnv) (s : BLEState), Inv s → s.connected = true →
         ∃ u, s.char_uuid = some u ∧
           on_button env none s name =
             some ⟨.ok (), s, [.write u (pyEncodeUtf8 name) true], ["Sent: " ++ name]⟩) ∧
    (∀ (env : ScanEnv) (s : BLEState), Inv s → s.connected = true →
       ∃ u, s.char_uuid = some u ∧
         on_button env none s "forward" =
           some ⟨.ok (), s, [.write u [102, 111, 114, 119, 97, 114, 100] true],
                 ["Sent: forward"]⟩) := by
  have main : ∀ name, name ∈ ["forward", "back", "left", "right", "switch"] →
      ∀ (env : ScanEnv) (s : BLEState), Inv s → s.connected = true →
        ∃ u, s.char_uuid = some u ∧
          on_button env none s name =
            some ⟨.ok (), s, [.write u (pyEncodeUtf8 name) true], ["Sent: " ++ name]⟩ := by
    intro name hmem env s hInv hc
    have hname : COMMANDS.lookup name = some name ∧ name ≠ "" ∧
        pyDecodeUtf8Replace (pyEncodeUtf8 name) = name := by
      have : name = "forward" ∨ name = "back" ∨ name = "left" ∨ name = "right" ∨
          name = "switch" := by simpa using hmem
      rcases this with h | h | h | h | h <;> subst h <;>
        exact ⟨by decide, by decide, by decide⟩
    obtain ⟨u, hu, hbtn⟩ := on_button_run hInv hc hname.1 hname.2.1
    refine ⟨u, hu, ?_⟩
    rw [hbtn, hname.2.2]
    rfl
  refine ⟨main, ?_⟩
  intro env s hInv hc
  obtain ⟨u, hu, h⟩ := main "forward" (by simp) env s hInv hc
  refine ⟨u, hu, ?_⟩
  rw [h, show pyEncodeUtf8 "forward" = [102, 111, 114, 119, 97, 114, 100] from by decide,
      show ("Sent: " ++ "forward" : String) = "Sent: forward" from by decide]

/-- C9 witness: a concrete connected state and two concrete commands. -/
theorem C9_witness :
    (∃ u, stConn.char_uuid = some u ∧
      on_button envOk none stConn "back" =
        some ⟨.ok (), stConn, [.write u (pyEncodeUtf8 "back") true], ["Sent: " ++ "back"]⟩) ∧
    (∃ u, stConn.char_uuid = some u ∧
      on_button envOk none stConn "forward" =
        some ⟨.ok (), stConn, [.write u [102, 111, 114, 119, 97, 114, 100] true],
              ["Sent: forward"]⟩) :=
  ⟨C9_button_commands.1 "back" (by simp) envOk stConn stConn_inv rfl,
   C9_button_commands.2 envOk stConn stConn_inv rfl⟩

/-! ## Claim C10 -/

/-- C10: a failed write is frame-preserving — the send raises the write
error, the whole connection state is unchanged (still Connected), and the
next send on that state performs exactly one write with no discovery and no
transport open. -/
theorem C10_write_failure_frame : ∀ (s : BLEState) (msg : String) (p : List Nat) (r : Bool)
    (env : ScanEnv) (w2 : Option String) (p2 : List Nat), Inv s → s.connected = true →
    (send (some msg) s p r).result = .exn (.writeFailed msg) ∧
    (send (some msg) s p r).state = s ∧
    (∃ u, s.char_uuid = some u ∧
       (send_command env w2 (send (some msg) s p r).state p2).events =
         [.write u p2 REQUIRE_RESPONSE_ON_WRITE]) := by
  intro s msg p r env w2 p2 hInv hc
  obtain ⟨u, hu, hne, hsend⟩ := send_guard_ok (some msg) hInv hc p r
  refine ⟨by rw [hsend], send_state_eq _ _ _ _, u, hu, ?_⟩
  rw [send_state_eq, send_command_connected hc, sendPhase_events]
  obtain ⟨u2, hu2, hne2, hs2⟩ := send_guard_ok w2 hInv hc p2 REQUIRE_RESPONSE_ON_WRITE
  rw [hu] at hu2
  cases hu2
  rw [hs2]
  rfl

/-- C10 witness: a concrete connected state, failing then succeeding. -/
theorem C10_witness :
    (send (some "boom") stConn [102] true).result = .exn (.writeFailed "boom") ∧
    (send (some "boom") stConn [102] true).state = stConn ∧
    (∃ u, stConn.char_uuid = some u ∧
       (send_command envOk none (send (some "boom") stConn [102] true).state [98]).events =
         [.write u [98] REQUIRE_RESPONSE_ON_WRITE]) :=
  C10_write_failure_frame stConn "boom" [102] true envOk none [98] stConn_inv rfl

theorem setPc_false (c : CConfig) (p : PC) : setPc c false p = { c with pcA := p } := rfl

theorem setPc_true (c : CConfig) (p : PC) : setPc c true p = { c with pcB := p } := rfl

/-- The invariant holds initially. -/
theorem phi_init : Phi initConfig := by
  unfold Phi
  decide

set_option maxHeartbeats 1000000 in
/-- Every enabled step of either task preserves the invariant, given a
benign adapter (target found, connect succeeds) and a non-failing write. -/
theorem step_phi {env : ScanEnv} {d : Device}
    (hb : env.bleakAvailable = true)
    (hf : findTarget DEVICE_NAME env.devices = some d)
    (hce : env.connectErr = none)
    {c c2 : CConfig} (hPhi : Phi c) (i : Bool)
    (hstep : taskStep env none Op.sendOp c i = some c2) : Phi c2 := by
  cases i with
  | false =>
    unfold taskStep at hstep
    rw [show pcOf c false = c.pcA from rfl] at hstep
    cases hA : c.pcA with
    | start =>
      simp only [hA] at hstep
      cases hcon : c.ble.connected with
      | true =>
        rw [if_pos hcon] at hstep
        injection hstep with h2
        subst h2
        rw [setPc_false]
        obtain ⟨h1, h2, h3, h4, h5, h6, h7, h8, h9, h10, h11, h12, h13, h14⟩ := hPhi
        unfold Phi
        refine ⟨?_, ?_, ?_, ?_, ?_, ?_, ?_, ?_, ?_, ?_, ?_, ?_, ?_, ?_⟩
        all_goals try simp_all [isLockPC, inConnPhase, inOpenFin, inPost, cnt]
        all_goals omega
      | false =>
        rw [if_neg (by simp [hcon])] at hstep
        rw [if_neg (by simp [hb])] at hstep
        injection hstep with h2
        subst h2
        rw [setPc_false]
        obtain ⟨h1, h2, h3, h4, h5, h6, h7, h8, h9, h10, h11, h12, h13, h14⟩ := hPhi
        unfold Phi
        refine ⟨?_, ?_, ?_, ?_, ?_, ?_, ?_, ?_, ?_, ?_, ?_, ?_, ?_, ?_⟩
        all_goals try simp_all [isLockPC, inConnPhase, inOpenFin, inPost, cnt]
        all_goals omega
    | acq =>
      simp only [hA] at hstep
      by_cases hlock : c.lockHeld = none
      · rw [if_pos hlock] at hstep
        cases hcon : c.ble.connected with
        | true =>
          rw [if_pos hcon] at hstep
          injection hstep with h2
          subst h2
          rw [setPc_false]
          obtain ⟨h1, h2, h3, h4, h5, h6, h7, h8, h9, h10, h11, h12, h13, h14⟩ := hPhi
          unfold Phi
          refine ⟨?_, ?_, ?_, ?_, ?_, ?_, ?_, ?_, ?_, ?_, ?_, ?_, ?_, ?_⟩
          all_goals try simp_all [isLockPC, inConnPhase, inOpenFin, inPost, cnt]
          all_goals omega
        | false =>
          rw [if_neg (by simp [hcon])] at hstep
          injection hstep with h2
          subst h2
          obtain ⟨h1, h2, h3, h4, h5, h6, h7, h8, h9, h10, h11, h12, h13, h14⟩ := hPhi
          unfold Phi
          refine ⟨?_, ?_, ?_, ?_, ?_, ?_, ?_, ?_, ?_, ?_, ?_, ?_, ?_, ?_⟩
          all_goals try simp_all [setPc_false, isLockPC, inConnPhase, inOpenFin, inPost, cnt]
          all_goals omega
      · rw [if_neg hlock] at hstep
        cases hstep
    | disc =>
      simp only [hA] at hstep
      by_cases hlock : c.lockHeld = some false
      · rw [if_pos hlock, hf] at hstep
        injection hstep with h2
        subst h2
        obtain ⟨h1, h2, h3, h4, h5, h6, h7, h8, h9, h10, h11, h12, h13, h14⟩ := hPhi
        unfold Phi
        refine ⟨?_, ?_, ?_, ?_, ?_, ?_, ?_, ?_, ?_, ?_, ?_, ?_, ?_, ?_⟩
        all_goals try simp_all [setPc_false, isLockPC, inConnPhase, inOpenFin, inPost, cnt]
        all_goals omega
      · rw [if_neg hlock] at hstep
        cases hstep
    | opening =>
      simp only [hA] at hstep
      by_cases hlock : c.lockHeld = some false
      · rw [if_pos hlock, hce] at hstep
        injection hstep with h2
        subst h2
        obtain ⟨h1, h2, h3, h4, h5, h6, h7, h8, h9, h10, h11, h12, h13, h14⟩ := hPhi
        unfold Phi
        refine ⟨?_, ?_, ?_, ?_, ?_, ?_, ?_, ?_, ?_, ?_, ?_, ?_, ?_, ?_⟩
        all_goals try simp_all [setPc_false, isLockPC, inConnPhase, inOpenFin, inPost, cnt]
        all_goals omega
      · rw [if_neg hlock] at hstep
        cases hstep
    | fin =>
      simp only [hA] at hstep
      by_cases hlock : c.lockHeld = some false
      · rw [if_pos hlock] at hstep
        injection hstep with h2
        subst h2
        obtain ⟨h1, h2, h3, h4, h5, h6, h7, h8, h9, h10, h11, h12, h13, h14⟩ := hPhi
        have hpcB : inConnPhase c.pcB = false := by
          cases hpb : c.pcB <;> simp_all [isLockPC, inConnPhase]
        unfold Phi
        refine ⟨?_, ?_, ?_, ?_, ?_, ?_, ?_, ?_, ?_, ?_, ?_, ?_, ?_, ?_⟩
        all_goals try simp_all [setPc_false, isLockPC, inConnPhase, inOpenFin, inPost, cnt,
          pyTruthyOptStr, pyTruthyStr_iff, resolveCharUuid_ne_empty]
        all_goals omega
      · rw [if_neg hlock] at hstep
        cases hstep
    | sendAcq =>
      simp only [hA] at hstep
      by_cases hlock : c.lockHeld = none
      · rw [if_pos hlock] at hstep
        injection hstep with h2
        subst h2
        obtain ⟨h1, h2, h3, h4, h5, h6, h7, h8, h9, h10, h11, h12, h13, h14⟩ := hPhi
        unfold Phi
        refine ⟨?_, ?_, ?_, ?_, ?_, ?_, ?_, ?_, ?_, ?_, ?_, ?_, ?_, ?_⟩
        all_goals try simp_all [setPc_false, isLockPC, inConnPhase, inOpenFin, inPost, cnt]
        all_goals omega
      · rw [if_neg hlock] at hstep
        cases hstep
    | write =>
      simp only [hA] at hstep
      by_cases hlock : c.lockHeld = some false
      · rw [if_pos hlock] at hstep
        have hcon : c.ble.connected = true := by
          obtain ⟨h1, h2, h3, h4, h5, h6, h7, h8, h9, h10, h11, h12, h13, h14⟩ := hPhi
          exact h5 (by simp [hA, inPost])
        have hguard : (c.ble.client.isSome && c.ble.connected && pyTruthyOptStr c.ble.char_uuid) = true := by
          obtain ⟨h1, h2, h3, h4, h5, h6, h7, h8, h9, h10, h11, h12, h13, h14⟩ := hPhi
          obtain ⟨hcl, hch⟩ := h7 hcon
          simp [hcl, hcon, hch]
        rw [if_pos hguard] at hstep
        injection hstep with h2
        subst h2
        obtain ⟨h1, h2, h3, h4, h5, h6, h7, h8, h9, h10, h11, h12, h13, h14⟩ := hPhi
        unfold Phi
        refine ⟨?_, ?_, ?_, ?_, ?_, ?_, ?_, ?_, ?_, ?_, ?_, ?_, ?_, ?_⟩
        all_goals try simp_all [setPc_false, isLockPC, inConnPhase, inOpenFin, inPost, cnt]
        all_goals omega
      · rw [if_neg hlock] at hstep
        cases hstep
    | dAcq =>
      simp only [hA] at hstep
      exact Option.noConfusion hstep
    | dTear =>
      simp only [hA] at hstep
      exact Option.noConfusion hstep
    | done =>
      simp only [hA] at hstep
      exact Option.noConfusion hstep
    | failed =>
      simp only [hA] at hstep
      exact Option.noConfusion hstep
  | true =>
    unfold taskStep at hstep
    rw [show pcOf c true = c.pcB from rfl] at hstep
    cases hA : c.pcB with
    | start =>
      simp only [hA] at hstep
      cases hcon : c.ble.connected with
      | true =>
        rw [if_pos hcon] at hstep
        injection hstep with h2
        subst h2
        rw [setPc_true]
        obtain ⟨h1, h2, h3, h4, h5, h6, h7, h8, h9, h10, h11, h12, h13, h14⟩ := hPhi
        unfold Phi
        refine ⟨?_, ?_, ?_, ?_, ?_, ?_, ?_, ?_, ?_, ?_, ?_, ?_, ?_, ?_⟩
        all_goals try simp_all [isLockPC, inConnPhase, inOpenFin, inPost, cnt]
        all_goals omega
      | false =>
        rw [if_neg (by simp [hcon])] at hstep
        rw [if_neg (by simp [hb])] at hstep
        injection hstep with h2
        subst h2
        rw [setPc_true]
        obtain ⟨h1, h2, h3, h4, h5, h6, h7, h8, h9, h10, h11, h12, h13, h14⟩ := hPhi
        unfold Phi
        refine ⟨?_, ?_, ?_, ?_, ?_, ?_, ?_, ?_, ?_, ?_, ?_, ?_, ?_, ?_⟩
        all_goals try simp_all [isLockPC, inConnPhase, inOpenFin, inPost, cnt]
        all_goals omega
    | acq =>
      simp only [hA] at hstep
      by_cases hlock : c.lockHeld = none
      · rw [if_pos hlock] at hstep
        cases hcon : c.ble.connected with
        | true =>
          rw [if_pos hcon] at hstep
          injection hstep with h2
          subst h2
          rw [setPc_true]
          obtain ⟨h1, h2, h3, h4, h5, h6, h7, h8, h9, h10, h11, h12, h13, h14⟩ := hPhi
          unfold Phi
          refine ⟨?_, ?_, ?_, ?_, ?_, ?_, ?_, ?_, ?_, ?_, ?_, ?_, ?_, ?_⟩
          all_goals try simp_all [isLockPC, inConnPhase, inOpenFin, inPost, cnt]
          all_goals omega
        | false =>
          rw [if_neg (by simp [hcon])] at hstep
          injection hstep with h2
          subst h2
          obtain ⟨h1, h2, h3, h4, h5, h6, h7, h8, h9, h10, h11, h12, h13, h14⟩ := hPhi
          unfold Phi
          refine ⟨?_, ?_, ?_, ?_, ?_, ?_, ?_, ?_, ?_, ?_, ?_, ?_, ?_, ?_⟩
          all_goals try simp_all [setPc_true, isLockPC, inConnPhase, inOpenFin, inPost, cnt]
          all_goals omega
      · rw [if_neg hlock] at hstep
        cases hstep
    | disc =>
      simp only [hA] at hstep
      by_cases hlock : c.lockHeld = some true
      · rw [if_pos hlock, hf] at hstep
        injection hstep with h2
        subst h2
        obtain ⟨h1, h2, h3, h4, h5, h6, h7, h8, h9, h10, h11, h12, h13, h14⟩ := hPhi
        unfold Phi
        refine ⟨?_, ?_, ?_, ?_, ?_, ?_, ?_, ?_, ?_, ?_, ?_, ?_, ?_, ?_⟩
        all_goals try simp_all [setPc_true, isLockPC, inConnPhase, inOpenFin, inPost, cnt]
        all_goals omega
      · rw [if_neg hlock] at hstep
        cases hstep
    | opening =>
      simp only [hA] at hstep
      by_cases hlock : c.lockHeld = some true
      · rw [if_pos hlock, hce] at hstep
        injection hstep with h2
        subst h2
        obtain ⟨h1, h2, h3, h4, h5, h6, h7, h8, h9, h10, h11, h12, h13, h14⟩ := hPhi
        unfold Phi
        refine ⟨?_, ?_, ?_, ?_, ?_, ?_, ?_, ?_, ?_, ?_, ?_, ?_, ?_, ?_⟩
        all_goals try simp_all [setPc_true, isLockPC, inConnPhase, inOpenFin, inPost, cnt]
        all_goals omega
      · rw [if_neg hlock] at hstep
        cases hstep
    | fin =>
      simp only [hA] at hstep
      by_cases hlock : c.lockHeld = some true
      · rw [if_pos hlock] at hstep
        injection hstep with h2
        subst h2
        obtain ⟨h1, h2, h3, h4, h5, h6, h7, h8, h9, h10, h11, h12, h13, h14⟩ := hPhi
        have hpcB : inConnPhase c.pcA = false := by
          cases hpb : c.pcA <;> simp_all [isLockPC, inConnPhase]
        unfold Phi
        refine ⟨?_, ?_, ?_, ?_, ?_, ?_, ?_, ?_, ?_, ?_, ?_, ?_, ?_, ?_⟩
        all_goals try simp_all [setPc_true, isLockPC, inConnPhase, inOpenFin, inPost, cnt,
          pyTruthyOptStr, pyTruthyStr_iff, resolveCharUuid_ne_empty]
        all_goals omega
      · rw [if_neg hlock] at hstep
        cases hstep
    | sendAcq =>
      simp only [hA] at hstep
      by_cases hlock : c.lockHeld = none
      · rw [if_pos hlock] at hstep
        injection hstep with h2
        subst h2
        obtain ⟨h1, h2, h3, h4, h5, h6, h7, h8, h9, h10, h11, h12, h13, h14⟩ := hPhi
        unfold Phi
        refine ⟨?_, ?_, ?_, ?_, ?_, ?_, ?_, ?_, ?_, ?_, ?_, ?_, ?_, ?_⟩
        all_goals try simp_all [setPc_true, isLockPC, inConnPhase, inOpenFin, inPost, cnt]
        all_goals omega
      · rw [if_neg hlock] at hstep
        cases hstep
    | write =>
      simp only [hA] at hstep
      by_cases hlock : c.lockHeld = some true
      · rw [if_pos hlock] at hstep
        have hcon : c.ble.connected = true := by
          obtain ⟨h1, h2, h3, h4, h5, h6, h7, h8, h9, h10, h11, h12, h13, h14⟩ := hPhi
          exact h6 (by simp [hA, inPost])
        have hguard : (c.ble.client.isSome && c.ble.connected && pyTruthyOptStr c.ble.char_uuid) = true := by
          obtain ⟨h1, h2, h3, h4, h5, h6, h7, h8, h9, h10, h11, h12, h13, h14⟩ := hPhi
          obtain ⟨hcl, hch⟩ := h7 hcon
          simp [hcl, hcon, hch]
        rw [if_pos hguard] at hstep
        injection hstep with h2
        subst h2
        obtain ⟨h1, h2, h3, h4, h5, h6, h7, h8, h9, h10, h11, h12, h13, h14⟩ := hPhi
        unfold Phi
        refine ⟨?_, ?_, ?_, ?_, ?_, ?_, ?_, ?_, ?_, ?_, ?_, ?_, ?_, ?_⟩
        all_goals try simp_all [setPc_true, isLockPC, inConnPhase, inOpenFin, inPost, cnt]
        all_goals omega
      · rw [if_neg hlock] at hstep
        cases hstep
    | dAcq =>
      simp only [hA] at hstep
      exact Option.noConfusion hstep
    | dTear =>
      simp only [hA] at hstep
      exact Option.noConfusion hstep
    | done =>
      simp only [hA] at hstep
      exact Option.noConfusion hstep
    | failed =>
      simp only [hA] at hstep
      exact Option.noConfusion hstep

/-- The invariant holds in every reachable configuration. -/
theorem reach_phi {env : ScanEnv} {d : Device}
    (hb : env.bleakAvailable = true)
    (hf : findTarget DEVICE_NAME env.devices = some d)
    (hce : env.connectErr = none) :
    ∀ c, Reach env none (fun _ => Op.sendOp) c → Phi c := by
  intro c h
  induction h with
  | init => exact phi_init
  | step i hr hstep ih => exact step_phi hb hf hce ih i hstep

/-- The lock invariant holds initially. -/
theorem lockInv_init : LockInv initConfig := by
  unfold LockInv
  decide

set_option maxHeartbeats 1000000 in
/-- Every enabled step of either task preserves the lock invariant, for ANY
adapter behaviour, ANY write outcome and ANY pair of operations: each
operation acquires the lock before entering its exclusive section and
releases it on every exit path, normal or exceptional. -/
theorem step_lockInv {env : ScanEnv} {wErr : Option String} {op : Op}
    {c c2 : CConfig} (h : LockInv c) (i : Bool)
    (hstep : taskStep env wErr op c i = some c2) : LockInv c2 := by
  obtain ⟨l1, l2⟩ := h
  cases i with
  | false =>
    unfold taskStep at hstep
    rw [show pcOf c false = c.pcA from rfl] at hstep
    cases op <;> cases hA : c.pcA <;> simp only [hA] at hstep <;>
      repeat' split at hstep
    all_goals first
      | exact Option.noConfusion hstep
      | (injection hstep with h2
         subst h2
         refine ⟨?_, ?_⟩ <;> simp_all [setPc_false, isLockPC])
  | true =>
    unfold taskStep at hstep
    rw [show pcOf c true = c.pcB from rfl] at hstep
    cases op <;> cases hA : c.pcB <;> simp only [hA] at hstep <;>
      repeat' split at hstep
    all_goals first
      | exact Option.noConfusion hstep
      | (injection hstep with h2
         subst h2
         refine ⟨?_, ?_⟩ <;> simp_all [setPc_true, isLockPC])

/-- The lock invariant holds in every reachable configuration, for any
adapter, any write outcome and any mix of operations. -/
theorem reach_lockInv (env : ScanEnv) (wErr : Option String) (ops : Bool → Op) :
    ∀ c, Reach env wErr ops c → LockInv c := by
  intro c h
  induction h with
  | init => exact lockInv_init
  | step i hr hstep ih => exact step_lockInv ih i hstep

/-- C2: mutual exclusion and the two-send scenario.  First part: for EVERY
adapter behaviour, every write outcome and every pair of concurrent
submissions drawn from {connect, disconnect, send}, no reachable
configuration has both tasks inside an exclusive section at once — the
asyncio lock is the sole serialization point.  Second part: for two
concurrent send submissions on an unconnected controller with a benign
adapter, no reachable configuration has performed more than one transport
open, and every completed run has exactly one discovery, one open (the
second task finds the controller connected inside the lock and skips the
connect sequence) and exactly two writes. -/
theorem C2_mutual_exclusion :
    (∀ (env : ScanEnv) (wErr : Option String) (ops : Bool → Op) (c : CConfig),
       Reach env wErr ops c →
       ¬ (isLockPC c.pcA = true ∧ isLockPC c.pcB = true)) ∧
    (∀ (env : ScanEnv) (d : Device),
       env.bleakAvailable = true →
       findTarget DEVICE_NAME env.devices = some d →
       env.connectErr = none →
       ∀ c, Reach env none (fun _ => Op.sendOp) c →
         c.nOpen ≤ 1 ∧
         (c.pcA = PC.done → c.pcB = PC.done →
           c.nDiscover = 1 ∧ c.nOpen = 1 ∧ c.nWrite = 2)) := by
  constructor
  · intro env wErr ops c hreach
    obtain ⟨l1, l2⟩ := reach_lockInv env wErr ops c hreach
    rintro ⟨ha, hbv⟩
    rw [l1] at ha
    rw [l2] at hbv
    rw [ha] at hbv
    cases hbv
  · intro env d hb hf hce c hreach
    obtain ⟨h1, h2, h3, h4, h5, h6, h7, h8, h9, h10, h11, h12, h13, h14⟩ :=
      reach_phi hb hf hce c hreach
    refine ⟨?_, ?_⟩
    · by_cases hcon : c.ble.connected = true
      · have ha : ¬ c.pcA = PC.fin := by
          intro hfin
          have h0 := h3 (by simp [hfin, inConnPhase])
          exact absurd hcon (by simp [h0])
        have hb2 : ¬ c.pcB = PC.fin := by
          intro hfin
          have h0 := h4 (by simp [hfin, inConnPhase])
          exact absurd hcon (by simp [h0])
        simp [hcon, cnt, ha, hb2] at h11
        omega
      · rw [Bool.not_eq_true] at hcon
        by_cases hfa : c.pcA = PC.fin
        · by_cases hfb : c.pcB = PC.fin
          · have hx := h1.mp (by simp [hfa, isLockPC])
            have hy := h2.mp (by simp [hfb, isLockPC])
            rw [hx] at hy
            cases hy
          · simp [hcon, cnt, hfa, hfb] at h11
            omega
        · by_cases hfb : c.pcB = PC.fin
          · simp [hcon, cnt, hfa, hfb] at h11
            omega
          · simp [hcon, cnt, hfa, hfb] at h11
            omega
    · intro hda hdb
      have hcon : c.ble.connected = true := h5 (by simp [hda, inPost])
      simp [hda, hdb, inOpenFin, cnt, hcon] at h10 h11 h12
      exact ⟨h10, h11, h12⟩

/-- C2 witness: an explicit two-send schedule reaching the both-done
configuration with the counts supplied by the theorem, and a schedule where
a disconnect submission races a send submission, with the exclusion
conclusion supplied by the theorem while the disconnect holds the lock. -/
theorem C2_witness :
    Reach envOk none (fun _ => Op.sendOp) ⟨stConn, none, PC.done, PC.done, 1, 1, 2⟩ ∧
    (CConfig.mk stConn none PC.done PC.done 1 1 2).nDiscover = 1 ∧
    (CConfig.mk stConn none PC.done PC.done 1 1 2).nOpen = 1 ∧
    (CConfig.mk stConn none PC.done PC.done 1 1 2).nWrite = 2 ∧
    Reach envOk none (fun i => if i then Op.disconnectOp else Op.sendOp)
      ⟨initState, some true, PC.start, PC.dTear, 0, 0, 0⟩ ∧
    ¬ (isLockPC PC.start = true ∧ isLockPC PC.dTear = true) := by
  have s0 : Reach envOk none (fun _ => Op.sendOp) initConfig := Reach.init
  have s1 : Reach envOk none (fun _ => Op.sendOp)
      ⟨initState, none, PC.acq, PC.start, 0, 0, 0⟩ :=
    Reach.step false s0 (by decide)
  have s2 : Reach envOk none (fun _ => Op.sendOp)
      ⟨initState, some false, PC.disc, PC.start, 0, 0, 0⟩ :=
    Reach.step false s1 (by decide)
  have s3 : Reach envOk none (fun _ => Op.sendOp)
      ⟨{ initState with address := some "aa:bb" }, some false, PC.opening, PC.start, 1, 0, 0⟩ :=
    Reach.step false s2 (by decide)
  have s4 : Reach envOk none (fun _ => Op.sendOp)
      ⟨{ initState with address := some "aa:bb" }, some false, PC.fin, PC.start, 1, 1, 0⟩ :=
    Reach.step false s3 (by decide)
  have s5 : Reach envOk none (fun _ => Op.sendOp)
      ⟨stConn, none, PC.sendAcq, PC.start, 1, 1, 0⟩ :=
    Reach.step false s4 (by decide)
  have s6 : Reach envOk none (fun _ => Op.sendOp)
      ⟨stConn, some false, PC.write, PC.start, 1, 1, 0⟩ :=
    Reach.step false s5 (by decide)
  have s7 : Reach envOk none (fun _ => Op.sendOp)
      ⟨stConn, none, PC.done, PC.start, 1, 1, 1⟩ :=
    Reach.step false s6 (by decide)
  have s8 : Reach envOk none (fun _ => Op.sendOp)
      ⟨stConn, none, PC.done, PC.sendAcq, 1, 1, 1⟩ :=
    Reach.step true s7 (by decide)
  have s9 : Reach envOk none (fun _ => Op.sendOp)
      ⟨stConn, some true, PC.done, PC.write, 1, 1, 1⟩ :=
    Reach.step true s8 (by decide)
  have s10 : Reach envOk none (fun _ => Op.sendOp)
      ⟨stConn, none, PC.done, PC.done, 1, 1, 2⟩ :=
    Reach.step true s9 (by decide)
  have t0 : Reach envOk none (fun i => if i then Op.disconnectOp else Op.sendOp)
      initConfig := Reach.init
  have t1 : Reach envOk none (fun i => if i then Op.disconnectOp else Op.sendOp)
      ⟨initState, none, PC.start, PC.dAcq, 0, 0, 0⟩ :=
    Reach.step true t0 (by decide)
  have t2 : Reach envOk none (fun i => if i then Op.disconnectOp else Op.sendOp)
      ⟨initState, some true, PC.start, PC.dTear, 0, 0, 0⟩ :=
    Reach.step true t1 (by decide)
  have hcounts := C2_mutual_exclusion.2 envOk ⟨some "ardubotr4", "aa:bb"⟩
    (by decide) (by decide) (by decide) _ s10
  have hmux := C2_mutual_exclusion.1 envOk none
    (fun i => if i then Op.disconnectOp else Op.sendOp) _ t2
  obtain ⟨hd, ho, hw⟩ := hcounts.2 rfl rfl
  exact ⟨s10, hd, ho, hw, t2, hmux⟩

end Ardubot
